import Mathlib

/-!
Verification development for the action-registry core of the sky repository:
the MessagePack-style string codec wrappers (src/minipack.c) and the action
registry lifecycle (src/action_file.c).

Modelling conventions:
* a C byte stream (FILE) is a list of byte values together with a read/write
  position; bytes are Nat values below 256 by construction of every stream
  used here;
* bstring values (bstrlib) are Option (List Nat): none is the NULL pointer,
  some the byte content;
* allocation (malloc, realloc, bstring construction) always succeeds in the
  model; disk I/O primitives never raise device errors;
* the registry struct sky_action_file keeps both its actions array and its
  action_count field, exactly as the C struct does;
* the C functions return 0 on success and -1 on failure; the model renders
  this as Except Unit.
-/

/-- A C stdio stream: the byte contents and the current position. -/
structure FILE where
  data : List Nat
  pos : Nat
deriving DecidableEq, Repr

/-- ftell: the current stream position. -/
def ftell (file : FILE) : Nat := file.pos

/-- fseek with SEEK_SET: move the stream position to an absolute offset. -/
def fseek (file : FILE) (p : Nat) : FILE := { file with pos := p }

/-- fread(buffer, size, count, stream), glibc semantics: transfers
min(size*count, bytes remaining) bytes into the buffer, advances the
position by the bytes transferred (bytes of a trailing partial item are
transferred and consumed), and returns the number of COMPLETE items read.
Result: (stream after the read, bytes transferred, items read). -/
def fread (size count : Nat) (file : FILE) : FILE × List Nat × Nat :=
  let avail := file.data.length - file.pos
  let toRead := min (size * count) avail
  ({ file with pos := file.pos + toRead },
   ((file.data.drop file.pos).take toRead),
   toRead / size)

/-- sizeof(char*) on the LP64 platforms the source targets. The source
passes sizeof(char*), not sizeof(char), as the element size of the payload
fread/fwrite calls in src/minipack.c. -/
def charPtrSize : Nat := 8

/-- blength from bstrlib: byte length of a bstring, 0 for NULL. -/
def blength (b : Option (List Nat)) : Nat :=
  match b with
  | none => 0
  | some s => s.length

/-- biseq from bstrlib: -1 when either argument is NULL, 1 when the byte
contents are equal, 0 otherwise (exact, case-sensitive comparison). -/
def biseq (b0 b1 : Option (List Nat)) : Int :=
  match b0, b1 with
  | none, _ => -1
  | _, none => -1
  | some s0, some s1 => if s0 = s1 then 1 else 0

/-- Big-endian byte rendering of a natural number into k bytes. -/
def beBytes : Nat → Nat → List Nat
  | 0, _ => []
  | k + 1, n => n / 256 ^ k % 256 :: beBytes k n

/-- Big-endian reading of k bytes of a stream starting at an index; none
when the stream ends before k bytes are available. -/
def readBytesBE (file : FILE) (start : Nat) : Nat → Option Nat
  | 0 => some 0
  | k + 1 =>
    match file.data.get? start, readBytesBE file (start + 1) k with
    | some b, some rest => some (b * 256 ^ k + rest)
    | _, _ => none

/-- Modelled from the spec: readRawHeader decodes an upcoming byte-payload
length with MessagePack-style framing (compact single-byte tag 0xa0-0xbf
for lengths up to 31, extended tags 0xda/0xdb with an explicit-width
big-endian length field), returning (length, bytesConsumed) with
bytesConsumed = 0 signalling failure (malformed tag or premature end of
stream). The minipack library that implements this is not part of src/. -/
def minipack_fread_raw (file : FILE) : (Nat × Nat) × FILE :=
  match file.data.get? file.pos with
  | none => ((0, 0), file)
  | some b =>
    if 0xa0 ≤ b ∧ b ≤ 0xbf then
      ((b - 0xa0, 1), { file with pos := file.pos + 1 })
    else if b = 0xda then
      match readBytesBE file (file.pos + 1) 2 with
      | some n => ((n, 3), { file with pos := file.pos + 3 })
      | none => ((0, 0), file)
    else if b = 0xdb then
      match readBytesBE file (file.pos + 1) 4 with
      | some n => ((n, 5), { file with pos := file.pos + 5 })
      | none => ((0, 0), file)
    else ((0, 0), file)

/-- Modelled from the spec: writeRawHeader frames an upcoming byte payload,
using the compact tag for lengths up to 31 and the extended 16/32-bit
forms otherwise; rendered as the emitted bytes (writes never fail in the
model). The minipack library that implements this is not part of src/. -/
def minipack_fwrite_raw (n : Nat) : List Nat :=
  if n ≤ 31 then [0xa0 + n]
  else if n < 65536 then 0xda :: beBytes 2 n
  else 0xdb :: beBytes 4 n

/-- Modelled from the spec: readArrayHeader decodes an array-length header
(compact tag 0x90-0x9f for counts up to 15, extended tags 0xdc/0xdd with a
big-endian count field), returning (count, bytesConsumed) with
bytesConsumed = 0 signalling failure. The minipack library that implements
this is not part of src/. -/
def minipack_fread_array (file : FILE) : (Nat × Nat) × FILE :=
  match file.data.get? file.pos with
  | none => ((0, 0), file)
  | some b =>
    if 0x90 ≤ b ∧ b ≤ 0x9f then
      ((b - 0x90, 1), { file with pos := file.pos + 1 })
    else if b = 0xdc then
      match readBytesBE file (file.pos + 1) 2 with
      | some n => ((n, 3), { file with pos := file.pos + 3 })
      | none => ((0, 0), file)
    else if b = 0xdd then
      match readBytesBE file (file.pos + 1) 4 with
      | some n => ((n, 5), { file with pos := file.pos + 5 })
      | none => ((0, 0), file)
    else ((0, 0), file)

/-- Modelled from the spec: writeArrayHeader emits an array-length header,
compact for counts up to 15 and extended 16/32-bit otherwise; writes never
fail in the model. The minipack library that implements this is not part
of src/. -/
def minipack_fwrite_array (n : Nat) : List Nat :=
  if n ≤ 15 then [0x90 + n]
  else if n < 65536 then 0xdc :: beBytes 2 n
  else 0xdd :: beBytes 4 n

/-- Modelled from the spec: readInt decodes a signed 64-bit-range integer
with MessagePack-style framing (positive fixnum 0x00-0x7f, negative fixnum
0xe0-0xff, unsigned extended tags 0xcc-0xcf, signed extended tags
0xd0-0xd3), returning (value, bytesConsumed) with bytesConsumed = 0
signalling failure. The minipack library that implements this is not part
of src/. -/
def minipack_fread_int (file : FILE) : (Int × Nat) × FILE :=
  match file.data.get? file.pos with
  | none => ((0, 0), file)
  | some b =>
    if b ≤ 0x7f then (((b : Int), 1), { file with pos := file.pos + 1 })
    else if 0xe0 ≤ b ∧ b ≤ 0xff then
      (((b : Int) - 256, 1), { file with pos := file.pos + 1 })
    else if b = 0xcc then
      match readBytesBE file (file.pos + 1) 1 with
      | some n => (((n : Int), 2), { file with pos := file.pos + 2 })
      | none => ((0, 0), file)
    else if b = 0xcd then
      match readBytesBE file (file.pos + 1) 2 with
      | some n => (((n : Int), 3), { file with pos := file.pos + 3 })
      | none => ((0, 0), file)
    else if b = 0xce then
      match readBytesBE file (file.pos + 1) 4 with
      | some n => (((n : Int), 5), { file with pos := file.pos + 5 })
      | none => ((0, 0), file)
    else if b = 0xcf then
      match readBytesBE file (file.pos + 1) 8 with
      | some n => (((n : Int), 9), { file with pos := file.pos + 9 })
      | none => ((0, 0), file)
    else if b = 0xd0 then
      match readBytesBE file (file.pos + 1) 1 with
      | some n =>
        ((if n < 128 then (n : Int) else (n : Int) - 256, 2),
         { file with pos := file.pos + 2 })
      | none => ((0, 0), file)
    else if b = 0xd1 then
      match readBytesBE file (file.pos + 1) 2 with
      | some n =>
        ((if n < 32768 then (n : Int) else (n : Int) - 65536, 3),
         { file with pos := file.pos + 3 })
      | none => ((0, 0), file)
    else if b = 0xd2 then
      match readBytesBE file (file.pos + 1) 4 with
      | some n =>
        ((if n < 2147483648 then (n : Int) else (n : Int) - 4294967296, 5),
         { file with pos := file.pos + 5 })
      | none => ((0, 0), file)
    else if b = 0xd3 then
      match readBytesBE file (file.pos + 1) 8 with
      | some n =>
        ((if n < 9223372036854775808 then (n : Int)
          else (n : Int) - 18446744073709551616, 9),
         { file with pos := file.pos + 9 })
      | none => ((0, 0), file)
    else ((0, 0), file)

/-- Modelled from the spec: writeInt emits a signed 64-bit-range integer
in the smallest MessagePack-style form (fixnum when it fits, otherwise a
signed extended form); writes never fail in the model. The minipack
library that implements this is not part of src/. -/
def minipack_fwrite_int (v : Int) : List Nat :=
  if 0 ≤ v ∧ v ≤ 127 then [v.toNat]
  else if -32 ≤ v ∧ v < 0 then [(v + 256).toNat]
  else if -128 ≤ v ∧ v ≤ 127 then 0xd0 :: beBytes 1 ((v % 256).toNat)
  else if -32768 ≤ v ∧ v ≤ 32767 then 0xd1 :: beBytes 2 ((v % 65536).toNat)
  else if -2147483648 ≤ v ∧ v ≤ 2147483647 then
    0xd2 :: beBytes 4 ((v % 4294967296).toNat)
  else 0xd3 :: beBytes 8 ((v % 18446744073709551616).toNat)

/-- Translation of sky_minipack_fread_bstring (src/minipack.c lines 21-55).
The source records the position (ftell), reads the raw header, then calls
fread(buffer, sizeof(char*), length, file) - element size 8, not 1 - and
its success check is check(sz != length, ...): the read is treated as
successful exactly when the item count returned differs from length.  On
any failure path it fseeks back to the recorded position.  blk2bstr takes
the first length bytes of the buffer; buffer bytes beyond those actually
read are uninitialized memory in the source and are modelled as 0 (no
theorem below depends on them). -/
def sky_minipack_fread_bstring (file : FILE) : Except Unit (List Nat) × FILE :=
  match minipack_fread_raw file with
  | ((length, sz), file1) =>
    if sz = 0 then (Except.error (), fseek file1 (ftell file))
    else
      match fread charPtrSize length file1 with
      | (file2, buffer, sz2) =>
        if sz2 = length then (Except.error (), fseek file2 (ftell file))
        else (Except.ok ((buffer ++ List.replicate length 0).take length), file2)

/-- Translation of sky_minipack_fwrite_bstring (src/minipack.c lines 63-80),
rendered as the bytes emitted onto the stream.  The source writes the raw
header for blength(str), then, when str is not NULL, calls
fwrite(bdata(str), sizeof(char*), blength(str), file): blength items of 8
bytes each, that is the string bytes followed by 7*blength bytes of
adjacent heap memory (an out-of-bounds read in the source), modelled as 0
bytes.  fwrite transfers every item in the model, so the success check
sz == blength holds and the function never fails. -/
def sky_minipack_fwrite_bstring (str : Option (List Nat)) : List Nat :=
  minipack_fwrite_raw (blength str) ++
    match str with
    | none => []
    | some s => s ++ List.replicate (7 * s.length) 0

/-- The owning table (table.h is not part of src/): only its path field is
read by the action-file code; the path is a bstring. -/
structure sky_table where
  path : Option (List Nat)
deriving DecidableEq, Repr

/-- The action record (action.h is not part of src/; fields per the spec
data model): numeric id, bstring name, and the back-reference to the
owning registry.  Only the NULL/non-NULL status of the back-reference is
ever tested by the code in src/, so it is modelled as a Bool linkage flag. -/
structure sky_action where
  id : Nat
  name : Option (List Nat)
  action_file : Bool
deriving DecidableEq, Repr, Inhabited

/-- Modelled from the spec: sky_action_create (action.c is not part of
src/) returns a fresh detached action: id 0, no registry back-reference. -/
def sky_action_create : sky_action :=
  { id := 0, name := none, action_file := false }

/-- The registry struct (src/action_file.h lines 33-37): owning table
reference, actions array and action_count, both kept explicitly as in the
C struct. -/
structure sky_action_file where
  table : Option sky_table
  actions : List sky_action
  action_count : Nat
deriving DecidableEq, Repr

/-- A filesystem: a partial map from paths (byte strings) to file contents. -/
def Fs : Type := List Nat → Option (List Nat)

/-- Modelled from the spec: the file-existence probe exists(path) -> bool
of the collaborator interfaces (file.h is not part of src/); a file exists
when the filesystem map is defined at the path. -/
def sky_file_exists (path : List Nat) (fs : Fs) : Bool :=
  (fs path).isSome

/-- The byte string "/actions" appended to the table path by bformat in
sky_action_file_get_path. -/
def actionsSuffix : List Nat := [47, 97, 99, 116, 105, 111, 110, 115]

/-- Translation of sky_action_file_get_path (src/action_file.c lines
66-78): fails when the registry has no table or the table has no path;
otherwise returns the path <table.path>/actions. -/
def sky_action_file_get_path (action_file : sky_action_file) :
    Except Unit (List Nat) :=
  match action_file.table with
  | none => Except.error ()
  | some t =>
    match t.path with
    | none => Except.error ()
    | some p => Except.ok (p ++ actionsSuffix)

/-- Translation of sky_action_file_unload (src/action_file.c lines
216-235): frees every owned action, clears the array and resets the count
to 0; always succeeds. -/
def sky_action_file_unload (action_file : sky_action_file) : sky_action_file :=
  { action_file with actions := [], action_count := 0 }

/-- Translation of the read loop of sky_action_file_load (src/action_file.c
lines 118-134): for each slot create a detached action, read its id with
minipack_fread_int (failure when the consumed-byte count is 0), read its
name with sky_minipack_fread_bstring, link the action, and append.  The C
assigns the decoded int64 to the unsigned id field; negative values never
arise from files this code writes, rendered with Int.toNat. -/
def load_loop : Nat → FILE → List sky_action → Except Unit (List sky_action × FILE)
  | 0, file, acc => Except.ok (acc, file)
  | n + 1, file, acc =>
    match minipack_fread_int file with
    | ((v, sz), file1) =>
      if sz = 0 then Except.error ()
      else
        match sky_minipack_fread_bstring file1 with
        | (Except.error _, _) => Except.error ()
        | (Except.ok s, file2) =>
          load_loop n file2
            (acc ++ [{ sky_action_create with
                        id := v.toNat, name := some s, action_file := true }])

/-- Translation of sky_action_file_load (src/action_file.c lines 85-153):
first unload the registry; compute the path (failure aborts); when no file
exists at the path, store the empty array and count 0 and succeed; when it
exists, open it, read the array header (consumed-byte count 0 is failure),
run the read loop, and on success store the actions and the header count.
Any failure returns -1 with the registry still in its unloaded state.
fopen of an existing file always succeeds in the model.
Result: (status, registry state after the call). -/
def sky_action_file_load (action_file : sky_action_file) (fs : Fs) :
    Except Unit Unit × sky_action_file :=
  match sky_action_file_get_path (sky_action_file_unload action_file) with
  | Except.error _ => (Except.error (), sky_action_file_unload action_file)
  | Except.ok path =>
    match fs path with
    | none =>
      (Except.ok (),
       { sky_action_file_unload action_file with actions := [], action_count := 0 })
    | some bytes =>
      match minipack_fread_array { data := bytes, pos := 0 } with
      | ((count, sz), file1) =>
        if sz = 0 then (Except.error (), sky_action_file_unload action_file)
        else
          match load_loop count file1 [] with
          | Except.error _ => (Except.error (), sky_action_file_unload action_file)
          | Except.ok (acts, _) =>
            (Except.ok (),
             { sky_action_file_unload action_file with
                 actions := acts, action_count := count })

/-- Translation of the write loop of sky_action_file_save
(src/action_file.c lines 183-194): for each stored action in order, emit
its id with minipack_fwrite_int then its name with
sky_minipack_fwrite_bstring; writes never fail in the model, so the
per-field success checks of the source always pass. -/
def save_loop : List sky_action → List Nat
  | [] => []
  | a :: rest =>
    minipack_fwrite_int (a.id : Int) ++ sky_minipack_fwrite_bstring a.name ++
      save_loop rest

/-- Translation of sky_action_file_save (src/action_file.c lines 160-209):
compute the path (failure aborts); when a file exists at the path, open it
for writing with truncation and write the array header for action_count
followed by each stored action; when no file exists, write nothing and
succeed.  The iteration runs over the first action_count entries of the
array, as the C for loop does.  The registry struct is never assigned to.
Result: (status, registry state after the call, filesystem after the
call). -/
def sky_action_file_save (action_file : sky_action_file) (fs : Fs) :
    Except Unit Unit × sky_action_file × Fs :=
  match sky_action_file_get_path action_file with
  | Except.error _ => (Except.error (), action_file, fs)
  | Except.ok path =>
    if sky_file_exists path fs then
      (Except.ok (), action_file,
       fun p =>
         if p = path then
           some (minipack_fwrite_array action_file.action_count ++
                 save_loop (action_file.actions.take action_file.action_count))
         else fs p)
    else (Except.ok (), action_file, fs)

/-- Translation of sky_action_file_find_action_by_name (src/action_file.c
lines 249-272): the name must be non-NULL (check at line 253, an input
error); then a linear scan over the first action_count stored actions
returns the first whose name satisfies biseq(stored, name) == 1, or none.
An absent match is success with a NULL result. -/
def sky_action_file_find_action_by_name (action_file : sky_action_file)
    (name : Option (List Nat)) : Except Unit (Option sky_action) :=
  if name = none then Except.error ()
  else
    Except.ok ((action_file.actions.take action_file.action_count).find?
      (fun a => biseq a.name name == 1))

/-- Translation of sky_action_file_add_action (src/action_file.c lines
281-315).  The action must have id 0 and a NULL back-reference (lines
286-287).  Line 291-292 then runs the name lookup and the source check is
check(rc == 0 && _action != NULL, "Action already exists with the same
name"): the call proceeds exactly when the lookup SUCCEEDS AND RETURNS A
MATCH, and fails (goto error) when no action with that name exists - the
condition is inverted relative to its own error message.  On the
proceeding path the action is linked, given id 1 when the registry is
empty and otherwise the id of the stored action at index action_count - 1
plus one (out-of-range indexing for a malformed registry is rendered with
getD), and appended with the count incremented; realloc never fails in the
model. -/
def sky_action_file_add_action (action_file : sky_action_file)
    (action : sky_action) : Except Unit sky_action_file :=
  if ¬ (action.id = 0) then Except.error ()
  else if ¬ (action.action_file = false) then Except.error ()
  else
    match sky_action_file_find_action_by_name action_file action.name with
    | Except.error _ => Except.error ()
    | Except.ok _action =>
      if ¬ (_action ≠ none) then Except.error ()
      else
        Except.ok { action_file with
          action_count := action_file.action_count + 1,
          actions := action_file.actions.take action_file.action_count ++
            [{ action with
                action_file := true,
                id := if action_file.action_count = 0 then 1
                      else (action_file.actions.getD
                              (action_file.action_count - 1) default).id + 1 }] }

/-- Concrete fixture: a table whose path is the one-byte string "t". -/
def table0 : sky_table := { path := some [116] }

/-- Concrete fixture: the derived registry path, the bytes of "t/actions". -/
def path0 : List Nat := [116] ++ actionsSuffix

/-- Concrete fixture: a stored action with id 1 and name "a". -/
def a1 : sky_action := { id := 1, name := some [97], action_file := true }

/-- Concrete fixture: a registry holding the single stored action a1. -/
def af_one : sky_action_file :=
  { table := some table0, actions := [a1], action_count := 1 }

/-- Concrete fixture: an empty registry with a valid owner and path. -/
def af_empty : sky_action_file :=
  { table := some table0, actions := [], action_count := 0 }

/-- Concrete fixture: a registry whose owning table is NULL, so the path
computation fails. -/
def afBad : sky_action_file :=
  { table := none, actions := [a1], action_count := 1 }

/-- Concrete fixture: a filesystem holding an existing (empty) file at
path0 and nothing else. -/
def fs0 : Fs := fun p => if p = path0 then some [] else none

/-- Concrete fixture: the empty filesystem: no file exists at any path. -/
def fsNone : Fs := fun _ => none

/-- minipack_fread_raw never changes the byte contents of the stream. -/
theorem minipack_fread_raw_data (file : FILE) :
    (minipack_fread_raw file).2.data = file.data := by
  unfold minipack_fread_raw
  repeat' split
  all_goals rfl

/-- fread never changes the byte contents of the stream. -/
theorem fread_data (size count : Nat) (file : FILE) :
    (fread size count file).1.data = file.data := rfl

/-- The path computation only reads the table reference, which unload
keeps, so it is unchanged by unload. -/
theorem get_path_unload (action_file : sky_action_file) :
    sky_action_file_get_path (sky_action_file_unload action_file) =
      sky_action_file_get_path action_file := rfl

/-- Every return of sky_action_file_load either reports success or hands
back exactly the unloaded (empty) registry state. -/
theorem sky_action_file_load_cases (action_file : sky_action_file) (fs : Fs) :
    (sky_action_file_load action_file fs).1 = Except.ok () ∨
    (sky_action_file_load action_file fs).2 =
      sky_action_file_unload action_file := by
  unfold sky_action_file_load
  split
  · exact Or.inr rfl
  · split
    · exact Or.inl rfl
    · split
      · split
        · exact Or.inr rfl
        · split
          · exact Or.inr rfl
          · exact Or.inl rfl

/-- C1: the claim says adding an action whose name matches a stored one
fails and leaves action_count unchanged.  The source check at
src/action_file.c line 292 is inverted (it passes exactly when a match IS
found), so adding a second action named "a" to a registry already storing
an action named "a" succeeds, appends the duplicate with id 2, and raises
action_count to 2. -/
theorem C1_add_duplicate_name_succeeds_in_code :
    sky_action_file_add_action af_one
        { id := 0, name := some [97], action_file := false } =
      Except.ok { table := some table0,
                  actions := [{ id := 1, name := some [97], action_file := true },
                              { id := 2, name := some [97], action_file := true }],
                  action_count := 2 } := rfl

/-- C2: the claim says save followed by load reproduces the registry.  For
the one-action registry af_one against a pre-existing file, save succeeds
but emits 8 bytes of payload for the 1-byte name (fwrite element size
sizeof(char*)), and load then fails inside sky_minipack_fread_bstring,
whose success check sz != length rejects exactly the completed read, so
the reloaded registry is empty and the call reports failure. -/
theorem C2_save_then_load_fails_in_code :
    (sky_action_file_save af_one fs0).1 = Except.ok () ∧
    sky_action_file_load af_one (sky_action_file_save af_one fs0).2.2 =
      (Except.error (),
       { table := some table0, actions := [], action_count := 0 }) :=
  ⟨rfl, rfl⟩

/-- C3: the claim says the string read succeeds exactly when the announced
L payload bytes are available.  On the stream consisting of the single
header byte 0xa0 (a well-formed raw header announcing length 0, all 0
payload bytes available) the source fails: fread returns 0 items and the
success check requires the item count to DIFFER from the length. -/
theorem C3_zero_length_read_rejected_in_code :
    sky_minipack_fread_bstring { data := [0xa0], pos := 0 } =
      (Except.error (), { data := [0xa0], pos := 0 }) := rfl

/-- C4: on every failing invocation of sky_minipack_fread_bstring the
stream position on return equals the position recorded before the header
was read (the byte contents are read-only, so the whole stream is
restored). -/
theorem C4_fread_bstring_failure_restores_stream (file : FILE)
    (h : (sky_minipack_fread_bstring file).1 = Except.error ()) :
    (sky_minipack_fread_bstring file).2 = file := by
  have hd1 : (minipack_fread_raw file).2.data = file.data :=
    minipack_fread_raw_data file
  rcases hr : minipack_fread_raw file with ⟨⟨length, sz⟩, file1⟩
  rw [hr] at hd1
  rcases hf : fread charPtrSize length file1 with ⟨file2, buffer, sz2⟩
  have hd2 : file2.data = file.data := by
    have := fread_data charPtrSize length file1
    rw [hf] at this
    rw [this, hd1]
  simp only [sky_minipack_fread_bstring, hr, hf] at h ⊢
  by_cases hsz : sz = 0
  · simp only [hsz, if_true, fseek, ftell]
    rw [hd1]
  · simp only [hsz, if_false] at h ⊢
    by_cases hsz2 : sz2 = length
    · simp only [hsz2, if_true, fseek, ftell]
      rw [hd2]
    · simp [hsz2] at h

/-- Witness for C4 at the empty stream: the header read fails and the
stream comes back unchanged. -/
theorem C4_witness :
    (sky_minipack_fread_bstring { data := [], pos := 0 }).1 = Except.error () ∧
    (sky_minipack_fread_bstring { data := [], pos := 0 }).2 =
      { data := [], pos := 0 } :=
  ⟨rfl, C4_fread_bstring_failure_restores_stream { data := [], pos := 0 } rfl⟩

/-- C5: for a registry with a valid owner and path, when no file exists at
the derived path, load succeeds and leaves the registry empty with
action_count 0. -/
theorem C5_load_missing_file_succeeds_empty (action_file : sky_action_file)
    (fs : Fs) (path : List Nat)
    (hpath : sky_action_file_get_path action_file = Except.ok path)
    (hfs : fs path = none) :
    sky_action_file_load action_file fs =
      (Except.ok (), { action_file with actions := [], action_count := 0 }) := by
  unfold sky_action_file_load
  rw [get_path_unload, hpath]
  simp only [hfs]
  rfl

/-- Witness for C5: the empty registry af_empty against the empty
filesystem. -/
theorem C5_witness :
    sky_action_file_get_path af_empty = Except.ok path0 ∧
    fsNone path0 = none ∧
    sky_action_file_load af_empty fsNone =
      (Except.ok (), { af_empty with actions := [], action_count := 0 }) :=
  ⟨rfl, rfl, C5_load_missing_file_succeeds_empty af_empty fsNone path0 rfl rfl⟩

/-- C6: for a registry with a valid owner and path, when no file exists at
the derived path, save writes nothing (the filesystem is returned exactly
as given, so no file is created) and reports success. -/
theorem C6_save_missing_file_writes_nothing (action_file : sky_action_file)
    (fs : Fs) (path : List Nat)
    (hpath : sky_action_file_get_path action_file = Except.ok path)
    (hfs : fs path = none) :
    sky_action_file_save action_file fs = (Except.ok (), action_file, fs) := by
  unfold sky_action_file_save
  rw [hpath]
  simp [sky_file_exists, hfs]

/-- Witness for C6: the one-action registry af_one against the empty
filesystem. -/
theorem C6_witness :
    sky_action_file_get_path af_one = Except.ok path0 ∧
    fsNone path0 = none ∧
    sky_action_file_save af_one fsNone = (Except.ok (), af_one, fsNone) :=
  ⟨rfl, rfl, C6_save_missing_file_writes_nothing af_one fsNone path0 rfl rfl⟩

/-- C7: the claim says K successive successful adds on a registry that
starts empty yield ids 1..K.  The inverted duplicate check at
src/action_file.c line 292 makes every add against an empty registry fail
(the lookup finds no match, so the check raises the error), so not even
one successful add from the empty state exists and action_count stays 0. -/
theorem C7_add_on_empty_registry_always_fails (action : sky_action) :
    sky_action_file_add_action af_empty action = Except.error () := by
  rcases action with ⟨id, name, bf⟩
  by_cases h1 : id = 0
  · by_cases h2 : bf = false
    · cases name with
      | none =>
        simp [sky_action_file_add_action, sky_action_file_find_action_by_name,
              h1, h2]
      | some s =>
        simp [sky_action_file_add_action, sky_action_file_find_action_by_name,
              af_empty, h1, h2]
    · simp [sky_action_file_add_action, h2]
  · simp [sky_action_file_add_action, h1]

/-- C8: whenever sky_action_file_load reports failure, the registry state
it hands back is empty: no stored actions and action_count 0. -/
theorem C8_failed_load_leaves_registry_empty (action_file : sky_action_file)
    (fs : Fs)
    (h : (sky_action_file_load action_file fs).1 = Except.error ()) :
    (sky_action_file_load action_file fs).2.actions = [] ∧
    (sky_action_file_load action_file fs).2.action_count = 0 := by
  rcases sky_action_file_load_cases action_file fs with hok | hunl
  · rw [h] at hok
    exact absurd hok (by simp)
  · rw [hunl]
    exact ⟨rfl, rfl⟩

/-- Witness for C8: the registry afBad has no owning table, so its load
fails, and the returned state is empty. -/
theorem C8_witness :
    (sky_action_file_load afBad fsNone).1 = Except.error () ∧
    (sky_action_file_load afBad fsNone).2.actions = [] ∧
    (sky_action_file_load afBad fsNone).2.action_count = 0 :=
  ⟨rfl, C8_failed_load_leaves_registry_empty afBad fsNone rfl⟩

/-- Counterexample for C9: the claim says an empty (zero-length) query
name is rejected as an input error, but the source only tests the name
for NULL: querying the one-action registry af_one with the empty byte
string performs a normal lookup and returns success with a NULL result,
not the failure result. -/
theorem C9_empty_name_performs_lookup :
    sky_action_file_find_action_by_name af_one (some []) = Except.ok none := rfl

/-- C9 (amended): for every registry, sky_action_file_find_action_by_name
called with a NULL query name returns the input-error failure result
rather than performing a lookup; an empty (zero-length) query name is not
rejected and a normal lookup is performed. -/
theorem C9_null_name_rejected (action_file : sky_action_file) :
    sky_action_file_find_action_by_name action_file none = Except.error () := rfl

/-- C10: sky_action_file_save returns the registry state exactly as it
received it - table reference, stored action sequence and action_count -
on the success paths and the failure path alike. -/
theorem C10_save_preserves_registry_state (action_file : sky_action_file)
    (fs : Fs) :
    (sky_action_file_save action_file fs).2.1 = action_file := by
  unfold sky_action_file_save
  split
  · rfl
  · split
    · rfl
    · rfl
